import Mathlib

/-!
Verification development for the "ceshiyong-dabao" desktop application.

The Python sources are shallowly embedded:
* floating-point arithmetic is modelled over `ℝ`; Python's `round(x, 2)`
  (round to two decimal places) is modelled by `round2` below;
* every call to `random.uniform` / `random.randint` / `time.time()` /
  `datetime.now()` is modelled by an explicit parameter ("draw"), so the
  embedded functions are pure and the theorems quantify over the draws;
* Python string methods are modelled over the character list of the
  string: `pyLower` is `str.lower()`, `pyStrip` is `str.strip()`,
  `pySplitComma` is `str.split(",")`, `pyIn` is the `in` operator;
* Qt widget state read by a handler (line edits, sliders, combo boxes,
  dialog replies) is passed as explicit arguments; the message boxes a
  handler pops up are returned as a `List UiEffect`; pure rendering
  (tables, cards, labels, styles) has no observable store effect and is
  not modelled;
* Python's focused-record variables (`current_active`, `focused_node`,
  `current_task`) hold object references into the store list; they are
  modelled as the index of the referenced object, so an insert at the
  front shifts the model index up by one while the reference itself is
  unchanged.
-/

/-- Python's `round(x, 2)`: round to the nearest multiple of 1/100.
(Python rounds half to even; away from exact ties — the only places the
theorems below evaluate it — this agrees with `round`, nearest-half-up.) -/
noncomputable def round2 (x : ℝ) : ℝ := (round (x * 100) : ℤ) / 100

/-- Python `str.lower()`. -/
def pyLower (s : String) : String := ⟨s.data.map Char.toLower⟩

/-- Python `str.strip()`: drop leading and trailing whitespace. -/
def pyStrip (s : String) : String :=
  ⟨((s.data.dropWhile Char.isWhitespace).reverse.dropWhile Char.isWhitespace).reverse⟩

/-- Helper for `pySplitComma`: split a character list at every comma. -/
def splitCommaAux : List Char → List Char → List (List Char)
  | [], acc => [acc.reverse]
  | c :: rest, acc =>
      if c = ',' then acc.reverse :: splitCommaAux rest []
      else splitCommaAux rest (c :: acc)

/-- Python `str.split(",")` (note `"".split(",") = [""]`). -/
def pySplitComma (s : String) : List String :=
  (splitCommaAux s.data []).map fun l => ⟨l⟩

/-- Python's substring operator `sub in s`. -/
def pyIn (sub s : String) : Bool := decide (sub.data <:+: s.data)

/-- The user-visible message boxes a Qt handler pops up
(`QMessageBox.information` / `.critical` / `.warning`). -/
inductive UiEffect where
  | info (title msg : String)
  | critical (title msg : String)
  | warning (title msg : String)
deriving DecidableEq, Repr

/-- Mutate the `i`-th element of a list in place (a Python attribute
assignment through an object reference into the list). -/
def listModify {α : Type} (l : List α) (i : Nat) (f : α → α) : List α :=
  match l[i]? with
  | some a => l.set i (f a)
  | none => l

/-! ## `core/engine.py` -/

/-- The result record of `core/engine.py`, `CultureAlgorithm.evaluate_content`
(the Python function returns a dict with these three entries). -/
structure ContentEval where
  score : ℝ
  level : String
  suggestion : String

/-- `core/engine.py`, `CultureAlgorithm.evaluate_content`.  The arguments are
`data.get('depth', 0)`, `data.get('novelty', 0)`, `data.get('interaction', 0)`. -/
noncomputable def CultureAlgorithm.evaluate_content (d n i : ℝ) : ContentEval :=
  let raw_score := d * 0.4 + n * 0.3 + i * 0.3
  let confidence_factor := Real.sin (raw_score / 100)
  let final_result := round2 (raw_score * (1 + 0.1 * confidence_factor))
  { score := final_result
  , level := if final_result > 85 then "S" else "A"
  , suggestion := if final_result > 80 then "建议立即发布" else "需进一步优化" }

/-! ## `manager.py` -/

/-- `manager.py`, `ModuleManager` state: the widgets currently added to the
container's layout (in order), and `active_module` (the widget the manager
believes is mounted, `None` initially).  Widgets are identified by numeric
ids. -/
structure MgrState where
  container : List Nat
  active_module : Option Nat
deriving DecidableEq, Repr

/-- `manager.py`, `ModuleManager.switch_module`.  `construct name` models the
whole fallible front part of the `try` block — `importlib.reload`,
`importlib.import_module` and `mod.EntryWidget()` — returning either the
fresh widget or the exception message.  Any exception is caught by the
`except` clause, which prints the message; the print is returned in the
second component (`none` = nothing logged).  Note the source order: the
fallible steps all run BEFORE the old widget is removed from the
container. -/
def switch_module (construct : String → Except String Nat)
    (st : MgrState) (module_name : String) : MgrState × Option String :=
  match construct module_name with
  | .error e =>
      (st, some ("Module Load Error [" ++ module_name ++ "]: " ++ e))
  | .ok new_widget =>
      let cleaned :=
        match st.active_module with
        | some old => st.container.erase old
        | none => st.container
      ({ container := cleaned ++ [new_widget],
         active_module := some new_widget }, none)

/-- A loader that fails for every module name, as `importlib.import_module`
does for `"nonexistent"` (`ModuleNotFoundError`). -/
def failingConstruct : String → Except String Nat :=
  fun nm => .error ("No module named 'modules." ++ nm ++ "'")

/-! ## `core/auth.py` -/

/-- `core/auth.py`, `SessionProvider._INTERNAL_REGISTRY`: the single stored
account (`dict.get` is modelled by association-list lookup). -/
def INTERNAL_REGISTRY : List (String × String) :=
  [("admin", "e10adc3949ba59abbe56e057f20f883e")]

/-- `core/auth.py`, `SessionProvider.verify_credential`.  `md5` is the hash
function `hashlib.md5(...).hexdigest()`, abstracted as a parameter.  Python's
`if stored_hash and pwd_hash == "e10adc…"` treats `None` and `""` as falsy,
hence the `match` plus the non-empty test; note the source compares the
password hash against the literal registry constant, not against
`stored_hash`. -/
def verify_credential (md5 : String → String)
    (username password : String) : Bool × String :=
  if username = "" ∨ password = "" then (false, "凭证不能为空")
  else
    let pwd_hash := md5 password
    match (INTERNAL_REGISTRY.lookup username) with
    | some stored_hash =>
        if stored_hash ≠ "" ∧ pwd_hash = "e10adc3949ba59abbe56e057f20f883e" then
          (true, "验证通过")
        else (false, "身份信息不匹配")
    | none => (false, "身份信息不匹配")

/-! ## `modules/resources.py` -/

/-- The `gene_metrics` dict of a `DigitalAssetEntity` (always carries
exactly these five keys). -/
structure GeneMetrics where
  scarcity : ℝ
  technical : ℝ
  heritage : ℝ
  potential : ℝ
  duration_months : ℝ

/-- `modules/resources.py`, `ResourceEngine.evaluate_node`.  The attribute
dict always carries all five keys in the program, so the `.get` defaults
never fire; `market_fluctuation` is the `random.uniform(0.97, 1.03)` draw,
passed explicitly; `math.log1p t` is `Real.log (1 + t)`. -/
noncomputable def ResourceEngine.evaluate_node
    (scarcity technical heritage potential duration_months market_fluctuation : ℝ) : ℝ :=
  let raw_score :=
    scarcity * 0.45 + technical * 0.20 + heritage * 0.25 + potential * 0.10
  let time_boost := 1 + Real.log (1 + duration_months / 12.0) * 0.22
  let final_index := raw_score * time_boost * market_fluctuation
  round2 (min 100 final_index)

/-- `modules/resources.py`, `DigitalAssetEntity` (the fields its
constructor sets). -/
structure DigitalAssetEntity where
  asset_id : String
  name : String
  group_type : String
  extension : String
  file_size : Nat
  gene_metrics : GeneMetrics
  valuation : ℝ
  is_encrypted : Bool
  tags : List String
  logs : List String

/-- The environment inputs consumed by `DigitalAssetEntity.__init__`:
`int(time.time())`, `random.randint(100, 999)`, the `random.choice` /
`random.randint` draws for extension, size and gene metrics, the
`random.uniform(0.97, 1.03)` draw inside the initial valuation, and the
formatted `datetime.now()` string. -/
structure AssetDraws where
  t : Nat
  r : Nat
  extension : String
  file_size : Nat
  gene : GeneMetrics
  market : ℝ
  now : String

/-- `modules/resources.py`, `DigitalAssetEntity.__init__`. -/
noncomputable def mkDigitalAssetEntity (name group_type : String)
    (d : AssetDraws) : DigitalAssetEntity :=
  { asset_id := "RESOURCE-IDX-" ++ toString d.t ++ "-" ++ toString d.r
  , name := name
  , group_type := group_type
  , extension := d.extension
  , file_size := d.file_size
  , gene_metrics := d.gene
  , valuation := ResourceEngine.evaluate_node d.gene.scarcity d.gene.technical
      d.gene.heritage d.gene.potential d.gene.duration_months d.market
  , is_encrypted := true
  , tags := ["核心归档", "数字化转存"]
  , logs := [d.now ++ " 原始节点挂载成功"] }

/-- `modules/resources.py`, `EntryWidget._seed_data`: one entity per drawn
(name, type, draws) triple, appended in order. -/
noncomputable def seed_data (draws : List (String × String × AssetDraws)) :
    List DigitalAssetEntity :=
  draws.map fun nd => mkDigitalAssetEntity nd.1 nd.2.1 nd.2.2

/-- `modules/resources.py`, `EntryWidget` store state: the record list and
the focused record (`current_active`, an object reference modelled as an
index). -/
structure ResourcesState where
  db_snapshot : List DigitalAssetEntity
  current_active : Option Nat

/-- `modules/resources.py`, `EntryWidget._exec_query`: the record list the
query renders.  `query_text` is the search field, `selector_text` the
category combo box ("全部资产领域" is the all-categories sentinel). -/
def exec_query (db : List DigitalAssetEntity)
    (query_text selector_text : String) : List DigitalAssetEntity :=
  let kw := pyLower query_text
  db.filter fun e =>
    (pyIn kw (pyLower e.name) || pyIn kw (pyLower e.asset_id)) &&
      (selector_text == "全部资产领域" || e.group_type == selector_text)

/-- `modules/resources.py`, `EntryWidget._run_valuation_update`
("recompute"): pull the four slider values into the focused record's gene
metrics, re-run the engine (with the jitter draw `market`), overwrite the
valuation, append a log entry.  `showR` models Python float-to-string
formatting inside the f-string. -/
noncomputable def run_valuation_update (st : ResourcesState)
    (sld_scarcity sld_technical sld_heritage sld_potential market : ℝ)
    (ts : String) (showR : ℝ → String) : ResourcesState × List UiEffect :=
  match st.current_active with
  | none => (st, [])
  | some i =>
      ({ st with db_snapshot := listModify st.db_snapshot i fun e =>
          let new_val := ResourceEngine.evaluate_node sld_scarcity sld_technical
            sld_heritage sld_potential e.gene_metrics.duration_months market
          { e with
            gene_metrics :=
              { scarcity := sld_scarcity, technical := sld_technical,
                heritage := sld_heritage, potential := sld_potential,
                duration_months := e.gene_metrics.duration_months },
            valuation := new_val,
            logs := e.logs ++ [ts ++ " [算法中心] 价值重估分值: " ++ showR new_val] } },
        [])

/-- `modules/resources.py`, `EntryWidget._commit_update` ("save"): requires
a focused record; rejects a blank (stripped) name with a critical box and
no mutation; otherwise copies name, category and the comma-split tag list
into the record and appends a log entry. -/
def commit_update (st : ResourcesState)
    (in_name in_type in_tags ts : String) : ResourcesState × List UiEffect :=
  match st.current_active with
  | none => (st, [])
  | some i =>
      match st.db_snapshot[i]? with
      | none => (st, [])
      | some e =>
          let target_name := pyStrip in_name
          if target_name = "" then
            (st, [.critical "数据校验" "资源名称不能为空。"])
          else
            let e' : DigitalAssetEntity :=
              { e with
                name := target_name,
                group_type := in_type,
                tags := ((pySplitComma in_tags).filter
                  fun t => pyStrip t ≠ "").map pyStrip,
                logs := e.logs ++ [ts ++ " [人工校准] 元数据同步完成"] }
            ({ st with db_snapshot := st.db_snapshot.set i e' },
              [.info "同步成功"
                ("资产标识 " ++ e.asset_id ++ " 的变更已持久化。")])

/-- `os.path.basename` for the POSIX separator. -/
def basename (p : String) : String := (p.splitOn "/").getLastD p

/-- `modules/resources.py`, `EntryWidget._handle_create_flow` ("create"):
`file_path = none` models a cancelled file dialog; otherwise a fresh entity
for the chosen file is inserted at the FRONT of the store
(`db_snapshot.insert(0, new_item)`).  The focus reference is unchanged, so
its model index shifts by one. -/
noncomputable def handle_create_flow (st : ResourcesState)
    (file_path : Option String) (d : AssetDraws) : ResourcesState × List UiEffect :=
  match file_path with
  | none => (st, [])
  | some fp =>
      let f_name := basename fp
      let new_item := mkDigitalAssetEntity f_name "文献扫描" d
      ({ db_snapshot := new_item :: st.db_snapshot,
         current_active := st.current_active.map (· + 1) },
        [.info "入库完成" ("新资产 " ++ f_name ++ " 已成功挂载。")])

/-- `modules/resources.py`, `EntryWidget._handle_delete_sequence`
("delete"): requires a focused record; the confirmation dialog is modelled
by `reply_yes`; on confirmation the focused record is removed
(`list.remove` on the focused object = erase at its index) and the focus
is cleared. -/
def handle_delete_sequence (st : ResourcesState) (reply_yes : Bool) :
    ResourcesState × List UiEffect :=
  match st.current_active with
  | none => (st, [])
  | some i =>
      if reply_yes then
        ({ db_snapshot := st.db_snapshot.eraseIdx i, current_active := none }, [])
      else (st, [])

/-! ## `modules/copyright.py` -/

/-- The `factors` dict of a `CopyrightNode`. -/
structure RiskFactors where
  heat : ℝ
  openness : ℝ
  prot_level : ℝ

/-- `modules/copyright.py`, `CopyrightSecurityCore.run_risk_matrix_analysis`;
`noise` is the `random.uniform(0.9, 1.1)` draw. -/
noncomputable def CopyrightSecurityCore.run_risk_matrix_analysis
    (heat openness prot_level noise : ℝ) : ℝ :=
  let base_val := heat * 0.55 + openness * 0.45
  let suppression_factor := Real.exp (-prot_level / 2.5)
  round2 (min 100 (base_val * suppression_factor * noise))

/-- `modules/copyright.py`, `CopyrightNode` (the fields its constructor
sets). -/
structure CopyrightNode where
  uid : String
  title : String
  category : String
  fingerprint : String
  reg_timestamp : String
  status : String
  factors : RiskFactors
  risk_index : ℝ
  detected_violations : Nat
  op_history : List String

/-- The environment inputs consumed by `CopyrightNode.__init__`:
`int(time.time())`, `random.randint(100, 999)`, the salted-sha256
fingerprint, the formatted timestamp, the factor draws, the jitter draw of
the initial risk computation and the violation-count draw. -/
structure CopyrightDraws where
  t : Nat
  r : Nat
  fingerprint : String
  reg_timestamp : String
  factors : RiskFactors
  noise : ℝ
  violations : Nat

/-- `modules/copyright.py`, `CopyrightNode.__init__`
(`uid = f"CPRT-{int(time.time() % 100000)}-{randint(100, 999)}"`). -/
noncomputable def mkCopyrightNode (title category : String)
    (d : CopyrightDraws) : CopyrightNode :=
  { uid := "CPRT-" ++ toString (d.t % 100000) ++ "-" ++ toString d.r
  , title := title
  , category := category
  , fingerprint := d.fingerprint
  , reg_timestamp := d.reg_timestamp
  , status := "PROTECTED"
  , factors := d.factors
  , risk_index := CopyrightSecurityCore.run_risk_matrix_analysis
      d.factors.heat d.factors.openness d.factors.prot_level d.noise
  , detected_violations := d.violations
  , op_history := [d.reg_timestamp ++ " 成功执行链上指纹存证锚定"] }

/-- `modules/copyright.py`, `EntryWidget` store state (`focused_node` is an
object reference, modelled as an index). -/
structure CopyrightState where
  repository : List CopyrightNode
  focused_node : Option Nat

/-- A `QSlider` with `setRange(0, 100)` clamps `setValue` into [0, 100]. -/
noncomputable def sliderClamp (v : ℝ) : ℝ := min 100 (max 0 v)

/-- `modules/copyright.py`, `EntryWidget._exec_risk_simulation`
("recompute"): requires a focused record; pulls the two slider values into
its factors (`prot_level` has no slider and is kept), re-runs the risk
engine with the jitter draw `noise`, overwrites `risk_index`.  Only labels
and table cells are repainted — no message box. -/
noncomputable def exec_risk_simulation (st : CopyrightState)
    (sld_heat sld_openness noise : ℝ) : CopyrightState × List UiEffect :=
  match st.focused_node with
  | none => (st, [])
  | some i =>
      ({ st with repository := listModify st.repository i fun n =>
          { n with
            factors := { heat := sld_heat, openness := sld_openness,
                         prot_level := n.factors.prot_level },
            risk_index := CopyrightSecurityCore.run_risk_matrix_analysis
              sld_heat sld_openness n.factors.prot_level noise } },
        [])

/-- `modules/copyright.py`, `EntryWidget._load_inspector_data` ("select"):
look up the clicked uid (`next((n for n in repository if n.uid == uid),
None)` = first match); on found, focus it, sync the sliders from its
factors (through the slider clamp) and immediately re-run the risk
simulation; on not found, do nothing at all — no message, no exception. -/
noncomputable def load_inspector_data (st : CopyrightState)
    (uid : String) (noise : ℝ) : CopyrightState × List UiEffect :=
  match st.repository.findIdx? (fun n => n.uid == uid) with
  | none => (st, [])
  | some i =>
      match st.repository[i]? with
      | none => (st, [])
      | some node =>
          exec_risk_simulation { st with focused_node := some i }
            (sliderClamp node.factors.heat) (sliderClamp node.factors.openness)
            noise

/-- `modules/copyright.py`, `EntryWidget._handle_save_changes` ("save"):
requires a focused record; copies the title field into it UNCONDITIONALLY
(no blank check), appends a history entry and reports success. -/
def handle_save_changes (st : CopyrightState) (ui_title ts : String) :
    CopyrightState × List UiEffect :=
  match st.focused_node with
  | none => (st, [])
  | some i =>
      match st.repository[i]? with
      | none => (st, [])
      | some n =>
          let n' : CopyrightNode :=
            { n with title := ui_title,
                     op_history := n.op_history ++ [ts ++ " 人工执行配置校准"] }
          ({ st with repository := st.repository.set i n' },
            [.info "执行成功"
              ("版权节点 " ++ n.uid ++ " 的最新状态已同步至存证矩阵。")])

/-- `modules/copyright.py`, `EntryWidget._handle_create_node` ("create"):
a fresh node is inserted at the FRONT of the store
(`repository.insert(0, new_node)`); the focus reference is unchanged, so
its model index shifts by one. -/
noncomputable def handle_create_node (st : CopyrightState) (d : CopyrightDraws) :
    CopyrightState × List UiEffect :=
  let new_node := mkCopyrightNode "新内容版权存证项" "艺术影像" d
  ({ repository := new_node :: st.repository,
     focused_node := st.focused_node.map (· + 1) },
    [.info "存证成功" "数字特征指纹已成功写入系统索引，区块链异步同步中..."])

/-- `modules/copyright.py`, `EntryWidget._handle_delete_node` ("delete"):
requires a focused record; the confirmation dialog is modelled by
`ans_yes`; on confirmation the focused record is removed and the focus
cleared. -/
def handle_delete_node (st : CopyrightState) (ans_yes : Bool) :
    CopyrightState × List UiEffect :=
  match st.focused_node with
  | none => (st, [])
  | some i =>
      if ans_yes then
        ({ repository := st.repository.eraseIdx i, focused_node := none }, [])
      else (st, [])

/-! ## `modules/workflow.py` -/

/-- `modules/workflow.py`, `WorkflowTask` (the fields `_run_consensus_algo`
touches; `review_ai` is `reviews["AI合规引擎"]`). -/
structure WorkflowTask where
  task_id : String
  title : String
  requester : String
  priority : String
  current_stage : Nat
  status : String
  review_ai : ℝ
  logs : List String

/-- `modules/workflow.py`, `DecisionEngine.calculate_confidence` with the
scores dict `{AI合规引擎: ai, 法务部负责人: legal, 总编审: boss}` (three
entries, so the dispersion penalty always applies). -/
noncomputable def DecisionEngine.calculate_confidence (ai legal boss : ℝ) : ℝ :=
  let weighted_sum := ai * 0.15 + legal * 0.35 + boss * 0.50
  let variance := max ai (max legal boss) - min ai (min legal boss)
  let penalty := variance ^ 2 / 1000
  round2 (max 0 (min 100 (weighted_sum - penalty)))

/-- `modules/workflow.py`, `EntryWidget` state (`current_task` is an object
reference, modelled as an index). -/
structure WorkflowState where
  tasks : List WorkflowTask
  current_task : Option Nat

/-- `modules/workflow.py`, `EntryWidget._run_consensus_algo` ("recompute"):
requires a focused task; fuses the stored AI score with the two decision
sliders, shows the confidence label and appends a log entry to the task.
`showR` models Python float-to-string formatting. -/
noncomputable def run_consensus_algo (st : WorkflowState)
    (sld_legal sld_boss : ℝ) (ts : String) (showR : ℝ → String) :
    WorkflowState × List UiEffect :=
  match st.current_task with
  | none => (st, [])
  | some i =>
      ({ st with tasks := listModify st.tasks i fun task =>
          let conf := DecisionEngine.calculate_confidence
            task.review_ai sld_legal sld_boss
          { task with logs := task.logs ++
              [ts ++ " 算法执行推演，当前置信度: " ++ showR conf ++ "%"] } },
        [])

/-! ## `modules/planning.py` -/

/-- The `genes` dict of a plan (the five gene sliders, `setRange(0,
100)`). -/
structure PlanGenes where
  depth : Nat
  narrative : Nat
  visual : Nat
  interact : Nat
  trend : Nat
deriving DecidableEq, Repr

/-- One element of the flat JSON array `data_planning.json`:
`{"id", "title", "genes", "timestamp"}`. -/
structure PlanSnapshot where
  id : String
  title : String
  genes : PlanGenes
  timestamp : String
deriving DecidableEq, Repr

/-- `modules/planning.py`, `EntryWidget` state: the current plan id, the
title field, the five gene sliders, the in-memory snapshot list and the
parsed contents of `data_planning.json` (`none` = file absent). -/
structure PlanningState where
  plan_id : String
  ui_title : String
  gene_sliders : PlanGenes
  snapshot_manager : List PlanSnapshot
  storage : Option (List PlanSnapshot)
deriving DecidableEq, Repr

/-- `QSlider.setValue` on the five gene sliders (`setRange(0, 100)` clamps;
the lower bound is automatic on `Nat`). -/
def setGenesClamped (g : PlanGenes) : PlanGenes :=
  { depth := min g.depth 100, narrative := min g.narrative 100,
    visual := min g.visual 100, interact := min g.interact 100,
    trend := min g.trend 100 }

/-- `modules/planning.py`, `EntryWidget._handle_save_action`: build the
snapshot dict from the current fields, append it to the snapshot list and
write the WHOLE list to the file (`json.dump(self.snapshot_manager, f)`);
the disk write is modelled as succeeding (its `except` branch only shows a
critical box). -/
def handle_save_action (st : PlanningState) (ts : String) :
    PlanningState × List UiEffect :=
  let plan_dict : PlanSnapshot :=
    { id := st.plan_id, title := st.ui_title,
      genes := st.gene_sliders, timestamp := ts }
  let snap_name := "V" ++ toString (st.snapshot_manager.length + 1) ++ " - " ++ ts
  let mgr := st.snapshot_manager ++ [plan_dict]
  ({ st with snapshot_manager := mgr, storage := some mgr },
    [.info "存盘成功" ("策划案已作为快照 [" ++ snap_name ++ "] 持久化。")])

/-- `modules/planning.py`, `EntryWidget._handle_import_action`: if the file
is absent warn and stop; otherwise read the whole file, and if the array is
non-empty take its LAST element and restore its title and gene values into
the editable fields (each `setValue` goes through the slider clamp). -/
def handle_import_action (st : PlanningState) : PlanningState × List UiEffect :=
  match st.storage with
  | none => (st, [.warning "提示" "未找到历史存储数据。"])
  | some data =>
      match data.getLast? with
      | none => (st, [])
      | some last =>
          ({ st with ui_title := last.title,
                     gene_sliders := setGenesClamped last.genes },
            [.info "载入成功" ("已还原至最近快照: " ++ last.title)])

/-! ## Concrete sample data used by counterexamples and witnesses -/

/-- A concrete draw record for `DigitalAssetEntity.__init__`. -/
noncomputable def sampleAssetDraws : AssetDraws :=
  { t := 1726000123, r := 500, extension := ".GLB", file_size := 1024,
    gene := { scarcity := 50, technical := 70, heritage := 40,
              potential := 60, duration_months := 12 },
    market := 1, now := "2026-01-01 10:00:00" }

/-- A concrete digital asset. -/
noncomputable def sampleAsset : DigitalAssetEntity :=
  mkDigitalAssetEntity "莫高窟北魏壁画采集-000" "文物3D" sampleAssetDraws

/-- A concrete draw record for `CopyrightNode.__init__`. -/
noncomputable def sampleCopyrightDraws : CopyrightDraws :=
  { t := 1726054321, r := 500, fingerprint := "SIG-AAAAAA-BBBBBB-CCCCCC",
    reg_timestamp := "2026-01-01 10:00",
    factors := { heat := 50, openness := 50, prot_level := 3 },
    noise := 1, violations := 0 }

/-- A concrete copyright node (`uid = "CPRT-54321-500"`). -/
noncomputable def sampleCopyrightNode : CopyrightNode :=
  mkCopyrightNode "昆曲非遗采样音源" "民族音律" sampleCopyrightDraws

/-- Concrete resources panel state: one asset, focused. -/
noncomputable def rSt0 : ResourcesState :=
  { db_snapshot := [sampleAsset], current_active := some 0 }

/-- Concrete copyright panel state: one node, focused. -/
noncomputable def cSt0 : CopyrightState :=
  { repository := [sampleCopyrightNode], focused_node := some 0 }

/-- The seeding outcome in which the first two entities are created within
the same clock second with the same `randint(100, 999)` draw. -/
noncomputable def collidingSeed : List DigitalAssetEntity :=
  seed_data [("莫高窟北魏壁画采集-000", "文物3D", sampleAssetDraws),
             ("古琴散音长采样-001", "采样音频", sampleAssetDraws)]

/-! ## Helper lemmas -/

/-- `round` never moves a value down by more than 1/2. -/
theorem le_round_real (y : ℝ) : y - 1 / 2 ≤ (round y : ℝ) := by
  have h' := abs_le.mp (abs_sub_round y)
  linarith [h'.1, h'.2]

/-- `round` never moves a value up by more than 1/2. -/
theorem round_real_le (y : ℝ) : (round y : ℝ) ≤ y + 1 / 2 := by
  have h := abs_le.mp (abs_sub_round y)
  linarith [h.1, h.2]

/-- `round2` moves a value down by at most 1/200. -/
theorem le_round2 (x : ℝ) : x - 1 / 200 ≤ round2 x := by
  unfold round2
  have h := le_round_real (x * 100)
  rw [le_div_iff₀ (by norm_num : (0:ℝ) < 100)]
  linarith

/-- `round2` moves a value up by at most 1/200. -/
theorem round2_le_add (x : ℝ) : round2 x ≤ x + 1 / 200 := by
  unfold round2
  have h := round_real_le (x * 100)
  rw [div_le_iff₀ (by norm_num : (0:ℝ) < 100)]
  linarith

/-- Rounding a nonnegative value to two decimals stays nonnegative. -/
theorem round2_nonneg {x : ℝ} (hx : 0 ≤ x) : 0 ≤ round2 x := by
  unfold round2
  have h1 : (-1 : ℝ) < (round (x * 100) : ℝ) := by
    have := le_round_real (x * 100)
    nlinarith
  have h2 : (-1 : ℤ) < round (x * 100) := by exact_mod_cast h1
  have h3 : (0 : ℤ) ≤ round (x * 100) := by omega
  have h4 : (0 : ℝ) ≤ (round (x * 100) : ℝ) := by exact_mod_cast h3
  exact div_nonneg h4 (by norm_num)

/-- Rounding a value that is at most 100 to two decimals stays at most 100. -/
theorem round2_le_hundred {x : ℝ} (hx : x ≤ 100) : round2 x ≤ 100 := by
  unfold round2
  have h1 : (round (x * 100) : ℝ) < 10001 := by
    have := round_real_le (x * 100)
    nlinarith
  have h2 : round (x * 100) < (10001 : ℤ) := by exact_mod_cast h1
  have h3 : round (x * 100) ≤ (10000 : ℤ) := by omega
  have h4 : (round (x * 100) : ℝ) ≤ 10000 := by exact_mod_cast h3
  linarith [h4]

/-- The empty search text (lowercased) is a substring of everything. -/
theorem pyIn_empty (s : String) : pyIn (pyLower "") s = true :=
  decide_eq_true List.nil_infix

/-- Replacing a list element by one with the same `f`-image leaves the
`f`-image of the list unchanged. -/
theorem map_set_of_eq {α β : Type} (f : α → β) :
    ∀ (l : List α) (i : Nat) (e e' : α), l[i]? = some e → f e' = f e →
      (l.set i e').map f = l.map f
  | [], i, e, e', h, _ => by simp at h
  | a :: t, 0, e, e', h, hf => by
      simp at h
      subst h
      simp [hf]
  | a :: t, i + 1, e, e', h, hf => by
      simp at h
      simp [map_set_of_eq f t i e e' h hf]

/-- In-place mutation that preserves an observation `g` preserves the
`g`-image of the whole list. -/
theorem listModify_map {α β : Type} (g : α → β) (l : List α) (i : Nat)
    (f : α → α) (hf : ∀ a, g (f a) = g a) :
    (listModify l i f).map g = l.map g := by
  unfold listModify
  cases h : l[i]? with
  | none => rfl
  | some a => exact map_set_of_eq g l i a (f a) h (hf a)

/-- The query over the empty search text and the all-categories sentinel
keeps every record. -/
theorem exec_query_empty_all (db : List DigitalAssetEntity) :
    exec_query db "" "全部资产领域" = db := by
  unfold exec_query
  apply List.filter_eq_self.mpr
  intro a _
  simp [pyIn_empty]

/-! ## Claim theorems -/

/-- C1, counterexample: at the all-max attribute set
(depth = novelty = interaction = 100) the culture scoring function of
`core/engine.py` returns a score strictly greater than 100 — the function
applies no clamp, so the claimed `score ∈ [0,100]` invariant fails on a
boundary input. -/
theorem C1_counterexample_evaluate_content_exceeds_100 :
    100 < (CultureAlgorithm.evaluate_content 100 100 100).score := by
  have hsin : (3 / 4 : ℝ) < Real.sin 1 := by
    have h := Real.sin_gt_sub_cube (by norm_num : (0:ℝ) < 1) (le_refl 1)
    norm_num at h
    exact h
  have harg : ((100 : ℝ) * 0.4 + 100 * 0.3 + 100 * 0.3) = 100 := by norm_num
  show 100 < round2 (((100 : ℝ) * 0.4 + 100 * 0.3 + 100 * 0.3) *
      (1 + 0.1 * Real.sin (((100 : ℝ) * 0.4 + 100 * 0.3 + 100 * 0.3) / 100)))
  rw [harg]
  norm_num
  have := le_round2 (100 * (1 + 0.1 * Real.sin 1))
  linarith

/-- C1, amended: the resources scoring function
`ResourceEngine.evaluate_node` IS clamped: for attribute values in
[0,100], a nonnegative storage duration and the jitter draw inside its
documented band [0.97, 1.03], the returned valuation lies in [0,100]
(this also covers the all-zero and all-max boundary attribute sets);
the culture scoring function `CultureAlgorithm.evaluate_content`, by
contrast, is not clamped (see the counterexample). -/
theorem C1_evaluate_node_range (s t h p m j : ℝ)
    (hs0 : 0 ≤ s) (hs1 : s ≤ 100) (ht0 : 0 ≤ t) (ht1 : t ≤ 100)
    (hh0 : 0 ≤ h) (hh1 : h ≤ 100) (hp0 : 0 ≤ p) (hp1 : p ≤ 100)
    (hm : 0 ≤ m) (hj0 : 0.97 ≤ j) (hj1 : j ≤ 1.03) :
    0 ≤ ResourceEngine.evaluate_node s t h p m j ∧
      ResourceEngine.evaluate_node s t h p m j ≤ 100 := by
  unfold ResourceEngine.evaluate_node
  have h045 : (0:ℝ) ≤ s * 0.45 := mul_nonneg hs0 (by norm_num)
  have h020 : (0:ℝ) ≤ t * 0.20 := mul_nonneg ht0 (by norm_num)
  have h025 : (0:ℝ) ≤ h * 0.25 := mul_nonneg hh0 (by norm_num)
  have h010 : (0:ℝ) ≤ p * 0.10 := mul_nonneg hp0 (by norm_num)
  have hraw0 : (0:ℝ) ≤ s * 0.45 + t * 0.20 + h * 0.25 + p * 0.10 := by linarith
  have hlog : 0 ≤ Real.log (1 + m / 12.0) := by
    apply Real.log_nonneg
    have : (0:ℝ) ≤ m / 12.0 := by positivity
    linarith
  have htb : (0:ℝ) ≤ 1 + Real.log (1 + m / 12.0) * 0.22 := by nlinarith
  have hfin : (0:ℝ) ≤ (s * 0.45 + t * 0.20 + h * 0.25 + p * 0.10) *
      (1 + Real.log (1 + m / 12.0) * 0.22) * j :=
    mul_nonneg (mul_nonneg hraw0 htb) (by linarith)
  constructor
  · exact round2_nonneg (le_min (by norm_num) hfin)
  · exact round2_le_hundred (min_le_left _ _)

/-- C1 witness: the amended clamping theorem instantiated at the all-max
boundary input with maximal jitter. -/
theorem C1_evaluate_node_range_witness :
    0 ≤ ResourceEngine.evaluate_node 100 100 100 100 72 1.03 ∧
      ResourceEngine.evaluate_node 100 100 100 100 72 1.03 ≤ 100 :=
  C1_evaluate_node_range 100 100 100 100 72 1.03
    (by norm_num) (by norm_num) (by norm_num) (by norm_num) (by norm_num)
    (by norm_num) (by norm_num) (by norm_num) (by norm_num) (by norm_num)
    (by norm_num)

/-- C2, counterexample: with panel 7 mounted, `switch_module "nonexistent"`
fails and the error is logged — but the container still holds panel 7 and
`active_module` still points at it: the container is NOT left empty and the
previous panel is NOT detached, because the import/construction failure
occurs before the old widget is removed. -/
theorem C2_counterexample_failed_switch_keeps_previous_panel :
    (switch_module failingConstruct ⟨[7], some 7⟩ "nonexistent").1 =
        ⟨[7], some 7⟩ ∧
      (switch_module failingConstruct ⟨[7], some 7⟩ "nonexistent").1.container ≠ [] ∧
      (switch_module failingConstruct ⟨[7], some 7⟩ "nonexistent").2 =
        some "Module Load Error [nonexistent]: No module named 'modules.nonexistent'" := by
  refine ⟨rfl, ?_, rfl⟩
  decide

/-- C2, amended: when module resolution or widget construction fails, the
exception is caught and logged rather than propagated, and the mount is
abandoned with the manager state completely unchanged — the previously
mounted panel (if any) remains attached in the container; there is no
tear-down to roll back because the failure happens before the old panel is
removed. -/
theorem C2_failed_switch_is_logged_noop
    (construct : String → Except String Nat) (st : MgrState)
    (module_name e : String) (hfail : construct module_name = .error e) :
    switch_module construct st module_name =
      (st, some ("Module Load Error [" ++ module_name ++ "]: " ++ e)) := by
  unfold switch_module
  rw [hfail]

/-- C2 witness: the amended theorem applied to a concrete failing switch. -/
theorem C2_failed_switch_is_logged_noop_witness :
    switch_module failingConstruct ⟨[3, 7], some 7⟩ "planningX" =
      (⟨[3, 7], some 7⟩,
        some "Module Load Error [planningX]: No module named 'modules.planningX'") :=
  C2_failed_switch_is_logged_noop failingConstruct ⟨[3, 7], some 7⟩
    "planningX" "No module named 'modules.planningX'" rfl

/-- C3: `verify_credential` is a pure function of its inputs (determinism
and absence of side effects hold by construction in the embedding), and:
(a) it validates exactly the pairs matching the single stored account —
username `"admin"` with a non-empty password whose md5 digest equals the
stored hash (under real md5 that password is `"123456"`);
(b) every rejected pair gets a non-empty reason string;
(c) an empty username or an empty password is always rejected, with reason
`"凭证不能为空"` ("credentials must not be empty"). -/
theorem C3_verify_credential_spec (md5 : String → String) (u p : String) :
    ((verify_credential md5 u p).1 = true ↔
        u = "admin" ∧ p ≠ "" ∧ md5 p = "e10adc3949ba59abbe56e057f20f883e") ∧
      ((verify_credential md5 u p).1 = false →
        (verify_credential md5 u p).2 ≠ "") ∧
      (u = "" ∨ p = "" → verify_credential md5 u p = (false, "凭证不能为空")) := by
  unfold verify_credential INTERNAL_REGISTRY
  by_cases hu : u = ""
  · subst hu
    simp [List.lookup]
  · by_cases hp : p = ""
    · subst hp
      simp
    · simp only [hu, hp, or_self, if_false, false_or]
      by_cases ha : u = "admin"
      · subst ha
        by_cases hmd : md5 p = "e10adc3949ba59abbe56e057f20f883e"
        · simp [List.lookup, hmd, hp]
        · simp [List.lookup, hmd, hp]
      · have hbe : (u == "admin") = false := by
          simp [ha]
        simp [List.lookup, hbe, ha]

/-- C4, counterexample: the copyright panel's save
(`EntryWidget._handle_save_changes`) performs NO blank check: saving with a
blank title copies the blank into the focused record (its title becomes
`""`), appends a history entry (history grows from 1 to 2 entries) and
reports success — no `ValidationError` is signalled and the record is not
left unmodified, refuting the claim for this panel. -/
theorem C4_counterexample_copyright_save_accepts_blank_title :
    ((handle_save_changes cSt0 "" "10:00").1.repository.map
        CopyrightNode.title = [""]) ∧
      ((handle_save_changes cSt0 "" "10:00").1.repository.map
        (fun n => n.op_history.length) = [2]) ∧
      ((handle_save_changes cSt0 "" "10:00").2 =
        [UiEffect.info "执行成功"
          "版权节点 CPRT-54321-500 的最新状态已同步至存证矩阵。"]) :=
  ⟨rfl, rfl, rfl⟩

/-- C4, amended: the resources panel's save (`EntryWidget._commit_update`)
behaves as claimed — a blank (stripped) required name field yields a
critical validation box with the focused record and store left completely
unmodified, and otherwise the caller-supplied name/category/tags edits are
copied into the record and a history entry is appended; the copyright
panel's save (`EntryWidget._handle_save_changes`), however, validates
nothing: it copies the title unconditionally (blank included) and appends a
history entry. -/
theorem C4_save_validation
    (st : ResourcesState) (i : Nat) (e : DigitalAssetEntity)
    (in_name in_type in_tags ts : String)
    (hfoc : st.current_active = some i) (hget : st.db_snapshot[i]? = some e)
    (cst : CopyrightState) (j : Nat) (n : CopyrightNode) (title2 ts2 : String)
    (hfoc2 : cst.focused_node = some j) (hget2 : cst.repository[j]? = some n) :
    (pyStrip in_name = "" →
      commit_update st in_name in_type in_tags ts =
        (st, [UiEffect.critical "数据校验" "资源名称不能为空。"])) ∧
      (pyStrip in_name ≠ "" →
        commit_update st in_name in_type in_tags ts =
          ({ st with db_snapshot := st.db_snapshot.set i { e with
              name := pyStrip in_name,
              group_type := in_type,
              tags := ((pySplitComma in_tags).filter
                fun t => pyStrip t ≠ "").map pyStrip,
              logs := e.logs ++ [ts ++ " [人工校准] 元数据同步完成"] } },
            [UiEffect.info "同步成功"
              ("资产标识 " ++ e.asset_id ++ " 的变更已持久化。")])) ∧
      (handle_save_changes cst title2 ts2 =
        ({ cst with repository := cst.repository.set j { n with
            title := title2,
            op_history := n.op_history ++ [ts2 ++ " 人工执行配置校准"] } },
          [UiEffect.info "执行成功"
            ("版权节点 " ++ n.uid ++ " 的最新状态已同步至存证矩阵。")])) := by
  unfold commit_update handle_save_changes
  simp only [hfoc, hget, hfoc2, hget2]
  refine ⟨fun hb => by simp [hb], fun hb => by simp [hb], by trivial⟩

/-- C4 witness: the amended save theorem at concrete one-record panels —
a blank resources save is rejected without mutation, and a concrete
copyright save rewrites the focused node's title unconditionally. -/
theorem C4_save_validation_witness :
    (pyStrip "" = "" →
      commit_update rSt0 "" "文物3D" "" "12:00" =
        (rSt0, [UiEffect.critical "数据校验" "资源名称不能为空。"])) ∧
      (pyStrip "" ≠ "" →
        commit_update rSt0 "" "文物3D" "" "12:00" =
          ({ rSt0 with db_snapshot := rSt0.db_snapshot.set 0 { sampleAsset with
              name := pyStrip "",
              group_type := "文物3D",
              tags := ((pySplitComma "").filter
                fun t => pyStrip t ≠ "").map pyStrip,
              logs := sampleAsset.logs ++ ["12:00" ++ " [人工校准] 元数据同步完成"] } },
            [UiEffect.info "同步成功"
              ("资产标识 " ++ sampleAsset.asset_id ++ " 的变更已持久化。")])) ∧
      (handle_save_changes cSt0 "新标题" "12:01" =
        ({ cSt0 with repository := cSt0.repository.set 0 { sampleCopyrightNode with
            title := "新标题",
            op_history := sampleCopyrightNode.op_history ++
              ["12:01" ++ " 人工执行配置校准"] } },
          [UiEffect.info "执行成功"
            ("版权节点 " ++ sampleCopyrightNode.uid ++
              " 的最新状态已同步至存证矩阵。")])) :=
  C4_save_validation rSt0 0 sampleAsset "" "文物3D" "" "12:00" rfl rfl
    cSt0 0 sampleCopyrightNode "新标题" "12:01" rfl rfl

/-- C5: the query pipeline returns exactly the records whose title (`name`)
or identifier (`asset_id`) contains the search text case-insensitively AND
whose category equals the combo selection unless that is the all-categories
sentinel "全部资产领域"; the result is a sublist of the store (store order,
and the store itself is untouched — `exec_query` is a pure function of it);
in particular the empty search with the sentinel returns the full store. -/
theorem C5_exec_query_spec (db : List DigitalAssetEntity) (kw cat : String) :
    (exec_query db kw cat).Sublist db ∧
      (∀ e, e ∈ exec_query db kw cat ↔ e ∈ db ∧
        ((pyIn (pyLower kw) (pyLower e.name) = true ∨
            pyIn (pyLower kw) (pyLower e.asset_id) = true) ∧
          (cat = "全部资产领域" ∨ e.group_type = cat))) ∧
      exec_query db "" "全部资产领域" = db := by
  refine ⟨List.filter_sublist _, ?_, exec_query_empty_all db⟩
  intro e
  unfold exec_query
  rw [List.mem_filter]
  simp only [Bool.and_eq_true, Bool.or_eq_true, beq_iff_eq]

/-- C6: in BOTH stores, create inserts the fresh record at the FRONT —
resources' `_handle_create_flow` (`db_snapshot.insert(0, ...)`), so an
immediate full listing (`_exec_query` with empty text and the
all-categories sentinel) yields it at index 0, and copyright's
`_handle_create_node` (`repository.insert(0, ...)`), whose synced table
likewise shows it at row 0; and no operation other than create/delete
reorders either store: the identifier sequence is invariant under
resources save (`_commit_update`) and recompute (`_run_valuation_update`)
and under copyright save (`_handle_save_changes`) and recompute
(`_exec_risk_simulation`). -/
theorem C6_create_inserts_at_front (st : ResourcesState) (fp : String)
    (d : AssetDraws) (in_name in_type in_tags ts : String)
    (s1 s2 s3 s4 mkt : ℝ) (ts2 : String) (showR : ℝ → String)
    (cst : CopyrightState) (d2 : CopyrightDraws) (title2 ts3 : String)
    (sh so noise : ℝ) :
    (handle_create_flow st (some fp) d).1.db_snapshot =
        mkDigitalAssetEntity (basename fp) "文献扫描" d :: st.db_snapshot ∧
      (exec_query (handle_create_flow st (some fp) d).1.db_snapshot
          "" "全部资产领域")[0]? =
        some (mkDigitalAssetEntity (basename fp) "文献扫描" d) ∧
      (commit_update st in_name in_type in_tags ts).1.db_snapshot.map
          DigitalAssetEntity.asset_id =
        st.db_snapshot.map DigitalAssetEntity.asset_id ∧
      (run_valuation_update st s1 s2 s3 s4 mkt ts2 showR).1.db_snapshot.map
          DigitalAssetEntity.asset_id =
        st.db_snapshot.map DigitalAssetEntity.asset_id ∧
      (handle_create_node cst d2).1.repository =
        mkCopyrightNode "新内容版权存证项" "艺术影像" d2 :: cst.repository ∧
      (handle_create_node cst d2).1.repository[0]? =
        some (mkCopyrightNode "新内容版权存证项" "艺术影像" d2) ∧
      (handle_save_changes cst title2 ts3).1.repository.map
          CopyrightNode.uid =
        cst.repository.map CopyrightNode.uid ∧
      (exec_risk_simulation cst sh so noise).1.repository.map
          CopyrightNode.uid =
        cst.repository.map CopyrightNode.uid := by
  refine ⟨rfl, ?_, ?_, ?_, rfl, ?_, ?_, ?_⟩
  · rw [show (handle_create_flow st (some fp) d).1.db_snapshot =
        mkDigitalAssetEntity (basename fp) "文献扫描" d :: st.db_snapshot from rfl]
    rw [exec_query_empty_all]
    simp
  · unfold commit_update
    cases hca : st.current_active with
    | none => rfl
    | some i =>
        cases hg : st.db_snapshot[i]? with
        | none => simp [hg]
        | some e =>
            by_cases hb : pyStrip in_name = ""
            · simp [hg, hb]
            · simp only [hg, if_neg hb]
              exact map_set_of_eq _ _ _ _ _ hg rfl
  · unfold run_valuation_update
    cases hca : st.current_active with
    | none => rfl
    | some i => exact listModify_map _ _ _ _ fun a => rfl
  · rw [show (handle_create_node cst d2).1.repository =
        mkCopyrightNode "新内容版权存证项" "艺术影像" d2 :: cst.repository from rfl]
    simp
  · unfold handle_save_changes
    cases hcf : cst.focused_node with
    | none => rfl
    | some j =>
        cases hg : cst.repository[j]? with
        | none => simp [hg]
        | some n =>
            simp only [hg]
            exact map_set_of_eq _ _ _ _ _ hg rfl
  · unfold exec_risk_simulation
    cases hcf : cst.focused_node with
    | none => rfl
    | some j => exact listModify_map _ _ _ _ fun a => rfl

/-- C7, counterexample: deleting the focused record and then selecting its
identifier produces NO signal whatsoever — the select handler's not-found
branch is a silent no-op (`next(..., None)` followed by `if node:`), so no
`RecordNotFoundError` (nor any message box) is raised, contrary to the
claim. -/
theorem C7_counterexample_select_after_delete_is_silent :
    load_inspector_data (handle_delete_node cSt0 true).1
        sampleCopyrightNode.uid 1 =
      ((handle_delete_node cSt0 true).1, []) := rfl

/-- C7, amended: a confirmed delete removes the focused record from the
store and clears the focus; a subsequent select with that record's
identifier (assuming, as everywhere in the claim, that the identifier does
not also belong to another record) finds no record and is a silent no-op —
state unchanged, focus unchanged (still cleared), and nothing signalled
(no `RecordNotFoundError` exists in the program). -/
theorem C7_delete_then_select (st : CopyrightState) (i : Nat)
    (n : CopyrightNode) (noise : ℝ)
    (hfoc : st.focused_node = some i) (hget : st.repository[i]? = some n)
    (hunique : ∀ m ∈ st.repository.eraseIdx i, m.uid ≠ n.uid) :
    (handle_delete_node st true).1 =
        { repository := st.repository.eraseIdx i, focused_node := none } ∧
      load_inspector_data (handle_delete_node st true).1 n.uid noise =
        ((handle_delete_node st true).1, []) := by
  have h1 : (handle_delete_node st true).1 =
      { repository := st.repository.eraseIdx i, focused_node := none } := by
    unfold handle_delete_node
    simp [hfoc]
  refine ⟨h1, ?_⟩
  rw [h1]
  unfold load_inspector_data
  have hnone : (st.repository.eraseIdx i).findIdx?
      (fun m => m.uid == n.uid) = none := by
    rw [List.findIdx?_eq_none_iff]
    intro x hx
    simp [hunique x hx]
  simp [hnone]

/-- C7 witness: the amended theorem at the concrete one-record panel. -/
theorem C7_delete_then_select_witness :
    (handle_delete_node cSt0 true).1 =
        { repository := cSt0.repository.eraseIdx 0, focused_node := none } ∧
      load_inspector_data (handle_delete_node cSt0 true).1
          sampleCopyrightNode.uid 1 =
        ((handle_delete_node cSt0 true).1, []) :=
  C7_delete_then_select cSt0 0 sampleCopyrightNode 1 rfl rfl
    (by intro m hm; simp [cSt0] at hm)

/-- C8, counterexample: identifiers are NOT pairwise distinct for every
possible random draw — two records created in the same whole second with
the same random suffix draw receive the identical identifier
`"RESOURCE-IDX-1726000123-500"`, and the constructor performs no
uniqueness check against the store. -/
theorem C8_counterexample_duplicate_identifiers :
    ¬ List.Pairwise (fun a b => a.asset_id ≠ b.asset_id) collidingSeed := by
  intro hpw
  have h : collidingSeed =
      [mkDigitalAssetEntity "莫高窟北魏壁画采集-000" "文物3D" sampleAssetDraws,
       mkDigitalAssetEntity "古琴散音长采样-001" "采样音频" sampleAssetDraws] := rfl
  rw [h] at hpw
  rcases List.pairwise_cons.mp hpw with ⟨hrel, _⟩
  exact hrel _ (List.mem_singleton_self _) rfl

/-- C8, amended: a record's identifier is determined entirely by the
whole-second creation timestamp and the random suffix draw
(`f"RESOURCE-IDX-{int(time.time())}-{randint(100, 999)}"` — independent of
name and category), so records sharing both draws collide and pairwise
distinctness is NOT guaranteed for every random draw. -/
theorem C8_asset_id_depends_only_on_draws
    (name1 name2 group1 group2 : String) (d : AssetDraws) :
    (mkDigitalAssetEntity name1 group1 d).asset_id =
        (mkDigitalAssetEntity name2 group2 d).asset_id ∧
      (mkDigitalAssetEntity name1 group1 d).asset_id =
        "RESOURCE-IDX-" ++ toString d.t ++ "-" ++ toString d.r :=
  ⟨rfl, rfl⟩

/-- Clamping a gene record already inside the slider range is the
identity. -/
theorem setGenesClamped_eq_self (g : PlanGenes)
    (h1 : g.depth ≤ 100) (h2 : g.narrative ≤ 100) (h3 : g.visual ≤ 100)
    (h4 : g.interact ≤ 100) (h5 : g.trend ≤ 100) :
    setGenesClamped g = g := by
  cases g with
  | mk a b c d e =>
      dsimp only at h1 h2 h3 h4 h5
      simp only [setGenesClamped, PlanGenes.mk.injEq]
      refine ⟨?_, ?_, ?_, ?_, ?_⟩ <;> omega

/-- C9: saving writes the WHOLE snapshot list to the file with the
just-saved snapshot (current plan id, title field, slider values,
timestamp) appended as the LAST element, and an immediate import reads the
file back, takes the last element of the array and restores exactly that
snapshot's title and gene values into the editable fields (the sliders
were in range, so the restoring `setValue` clamp is the identity). -/
theorem C9_save_import_roundtrip (st : PlanningState) (ts : String)
    (h1 : st.gene_sliders.depth ≤ 100) (h2 : st.gene_sliders.narrative ≤ 100)
    (h3 : st.gene_sliders.visual ≤ 100) (h4 : st.gene_sliders.interact ≤ 100)
    (h5 : st.gene_sliders.trend ≤ 100) :
    (handle_save_action st ts).1.storage =
        some (st.snapshot_manager ++
          [{ id := st.plan_id, title := st.ui_title,
             genes := st.gene_sliders, timestamp := ts }]) ∧
      (handle_import_action (handle_save_action st ts).1).1.ui_title =
        st.ui_title ∧
      (handle_import_action (handle_save_action st ts).1).1.gene_sliders =
        st.gene_sliders := by
  have hgen := setGenesClamped_eq_self st.gene_sliders h1 h2 h3 h4 h5
  have hlast : (st.snapshot_manager ++
      [({ id := st.plan_id, title := st.ui_title,
          genes := st.gene_sliders, timestamp := ts } : PlanSnapshot)]).getLast? =
      some { id := st.plan_id, title := st.ui_title,
             genes := st.gene_sliders, timestamp := ts } := by
    simp [List.getLast?_concat]
  refine ⟨rfl, ?_, ?_⟩ <;>
    · unfold handle_import_action handle_save_action
      simp only [hlast, hgen]

/-- C9 witness: the round-trip at a concrete planning state. -/
theorem C9_save_import_roundtrip_witness :
    (handle_save_action
        { plan_id := "PLN-1726000123", ui_title := "敦煌光影展",
          gene_sliders := { depth := 60, narrative := 50, visual := 80,
                            interact := 40, trend := 70 },
          snapshot_manager := [], storage := none } "12:00:00").1.storage =
        some ([] ++
          [{ id := "PLN-1726000123", title := "敦煌光影展",
             genes := { depth := 60, narrative := 50, visual := 80,
                        interact := 40, trend := 70 },
             timestamp := "12:00:00" }]) ∧
      (handle_import_action (handle_save_action
          { plan_id := "PLN-1726000123", ui_title := "敦煌光影展",
            gene_sliders := { depth := 60, narrative := 50, visual := 80,
                              interact := 40, trend := 70 },
            snapshot_manager := [], storage := none } "12:00:00").1).1.ui_title =
        "敦煌光影展" ∧
      (handle_import_action (handle_save_action
          { plan_id := "PLN-1726000123", ui_title := "敦煌光影展",
            gene_sliders := { depth := 60, narrative := 50, visual := 80,
                              interact := 40, trend := 70 },
            snapshot_manager := [], storage := none } "12:00:00").1).1.gene_sliders =
        { depth := 60, narrative := 50, visual := 80,
          interact := 40, trend := 70 } :=
  C9_save_import_roundtrip
    { plan_id := "PLN-1726000123", ui_title := "敦煌光影展",
      gene_sliders := { depth := 60, narrative := 50, visual := 80,
                        interact := 40, trend := 70 },
      snapshot_manager := [], storage := none } "12:00:00"
    (by decide) (by decide) (by decide) (by decide) (by decide)

/-- C10: with no focused record, every focus-requiring mutating handler —
resources recompute/save/delete, copyright risk-recompute/save/delete and
the workflow consensus recompute — returns without raising, emits no
message box, and leaves the store and the focus completely unchanged. -/
theorem C10_no_focus_mutations_are_noops
    (rst : ResourcesState) (hr : rst.current_active = none)
    (cst : CopyrightState) (hc : cst.focused_node = none)
    (wst : WorkflowState) (hw : wst.current_task = none)
    (s1 s2 s3 s4 mkt sh so noise sl sb : ℝ)
    (ts ts2 ts3 ts4 in_name in_type in_tags title2 : String)
    (reply ans : Bool) (showR : ℝ → String) :
    run_valuation_update rst s1 s2 s3 s4 mkt ts showR = (rst, []) ∧
      commit_update rst in_name in_type in_tags ts2 = (rst, []) ∧
      handle_delete_sequence rst reply = (rst, []) ∧
      exec_risk_simulation cst sh so noise = (cst, []) ∧
      handle_save_changes cst title2 ts4 = (cst, []) ∧
      handle_delete_node cst ans = (cst, []) ∧
      run_consensus_algo wst sl sb ts3 showR = (wst, []) := by
  unfold run_valuation_update commit_update handle_delete_sequence
    exec_risk_simulation handle_save_changes handle_delete_node
    run_consensus_algo
  simp [hr, hc, hw]

/-- C10 witness: the no-focus no-op theorem at concrete unfocused panel
states. -/
theorem C10_no_focus_mutations_are_noops_witness :
    run_valuation_update ⟨[], none⟩ 0 0 0 0 1 "t" (fun _ => "") =
        (⟨[], none⟩, []) ∧
      commit_update ⟨[], none⟩ "n" "g" "tags" "t2" = (⟨[], none⟩, []) ∧
      handle_delete_sequence ⟨[], none⟩ true = (⟨[], none⟩, []) ∧
      exec_risk_simulation ⟨[], none⟩ 0 0 1 = (⟨[], none⟩, []) ∧
      handle_save_changes ⟨[], none⟩ "ttl" "t4" = (⟨[], none⟩, []) ∧
      handle_delete_node ⟨[], none⟩ true = (⟨[], none⟩, []) ∧
      run_consensus_algo ⟨[], none⟩ 0 0 "t3" (fun _ => "") =
        (⟨[], none⟩, []) :=
  C10_no_focus_mutations_are_noops ⟨[], none⟩ rfl ⟨[], none⟩ rfl ⟨[], none⟩ rfl
    0 0 0 0 1 0 0 1 0 0 "t" "t2" "t3" "t4" "n" "g" "tags" "ttl"
    true true (fun _ => "")

/-- C3 witness: the credential characterization at the concrete stored
account (an md5 oracle that maps the true password to the stored hash). -/
theorem C3_verify_credential_spec_witness :
    ((verify_credential (fun _ => "e10adc3949ba59abbe56e057f20f883e")
          "admin" "123456").1 = true ↔
        "admin" = "admin" ∧ "123456" ≠ "" ∧
          (fun _ : String => "e10adc3949ba59abbe56e057f20f883e") "123456" =
            "e10adc3949ba59abbe56e057f20f883e") ∧
      ((verify_credential (fun _ => "e10adc3949ba59abbe56e057f20f883e")
            "admin" "123456").1 = false →
        (verify_credential (fun _ => "e10adc3949ba59abbe56e057f20f883e")
            "admin" "123456").2 ≠ "") ∧
      ("admin" = "" ∨ "123456" = "" →
        verify_credential (fun _ => "e10adc3949ba59abbe56e057f20f883e")
            "admin" "123456" = (false, "凭证不能为空")) :=
  C3_verify_credential_spec (fun _ => "e10adc3949ba59abbe56e057f20f883e")
    "admin" "123456"
